import Mathlib

/-!
Verification development for the v2ray config checker (src/checker.py).

The Python source is shallowly embedded: each parse function, the config
renderer, the ledger operations, the trial runner and the batch port
assignment are translated into executable Lean definitions.  Python strings
are modelled as `List Char`, bytes as `List Nat` (each < 256), exceptions as
`Except PyErr` / `Option`, and JSON values as the inductive `PyJson`.
The relevant fragments of the Python standard library used by the source
(`base64.b64decode`, `json.loads`, `urllib.parse.urlparse` / `parse_qs`,
`ipaddress.ip_address`, `int(...)`) are modelled from their documented
CPython semantics, restricted to the behaviour the source exercises.
-/

namespace Checker

/-! ## Python string primitives (on `List Char`) -/

/-- ASCII whitespace as recognised by Python `str.strip()` (the model is
restricted to ASCII whitespace). -/
def pyIsSpace (c : Char) : Bool :=
  c = ' ' || c = '\t' || c = '\n' || c = '\r' || c = '\x0b' || c = '\x0c'

/-- Python `str.strip()`: drop leading and trailing whitespace. -/
def pyStrip (s : List Char) : List Char :=
  (((s.dropWhile pyIsSpace).reverse).dropWhile pyIsSpace).reverse

/-- Python `str.strip()` on `String`. -/
def pyStripS (s : String) : String :=
  String.mk (pyStrip s.data)

/-- Python `str.lower()` (ASCII). -/
def pyLower (s : List Char) : List Char :=
  s.map Char.toLower

/-- Python `needle in haystack` substring test. -/
def containsSub (hay needle : List Char) : Bool :=
  needle.isPrefixOf hay ||
    (match hay with
     | [] => false
     | _ :: t => containsSub t needle)

/-- Python `s.startswith(p)`. -/
def pyStartsWith (s p : List Char) : Bool :=
  p.isPrefixOf s

/-- Python `s.split(sep, 1)` for a non-empty separator, returning the two
pieces when the separator occurs, `none` otherwise (tuple unpacking of the
one-element result raises `ValueError` in Python). -/
def splitFirst (s sep : List Char) : Option (List Char × List Char) :=
  if sep.isPrefixOf s then
    some ([], s.drop sep.length)
  else
    match s with
    | [] => none
    | c :: t =>
      match splitFirst t sep with
      | some (a, b) => some (c :: a, b)
      | none => none

/-- Python `s.split(sep)` for a single-character separator; the empty string
splits into one empty piece, as in Python. -/
def splitAllChar (s : List Char) (sep : Char) : List (List Char) :=
  match s with
  | [] => [[]]
  | c :: t =>
    let r := splitAllChar t sep
    if c = sep then [] :: r
    else
      match r with
      | a :: rest => (c :: a) :: rest
      | [] => [[c]]

/-- The part of `s` after the last occurrence of `sep`; the whole of `s` when
`sep` is absent.  This is the third component of Python `s.rpartition(sep)`
combined with the absent-separator convention used by `urllib`
(`_, _, hostinfo = netloc.rpartition(at)` yields `netloc` itself when there
is no separator). -/
def afterLastChar (s : List Char) (sep : Char) : List Char :=
  match s with
  | [] => []
  | c :: t =>
    if (c :: t).contains sep then
      if c = sep && !(t.contains sep) then t else afterLastChar t sep
    else c :: t

/-- Python `s.partition(sep)` for a single-character separator, reduced to
the pair (before, after); when the separator is absent the second component
is the empty string, matching `partition`. -/
def partitionChar (s : List Char) (sep : Char) : List Char × List Char :=
  match splitFirst s [sep] with
  | some (a, b) => (a, b)
  | none => (s, [])

/-- Worker for `pyReplace` with a fixed non-empty pattern.  The fuel is
structural bookkeeping only: every step shortens the text by at least one
character, so fuel equal to the text length never runs out. -/
def pyReplaceGo (p : Char) (ps rep : List Char) : Nat → List Char → List Char
  | _, [] => []
  | 0, l => l
  | fuel + 1, c :: cs =>
    if (p :: ps).isPrefixOf (c :: cs) then
      rep ++ pyReplaceGo p ps rep fuel (cs.drop ps.length)
    else
      c :: pyReplaceGo p ps rep fuel cs

/-- Python `s.replace(pat, rep)` (all occurrences, left to right); the
patterns used by the source are never empty. -/
def pyReplace (s pat rep : List Char) : List Char :=
  match pat with
  | [] => s
  | p :: ps => pyReplaceGo p ps rep s.length s

/-! ## Python `int(str, 10)` -/

/-- Number of digit characters in a digit/underscore run. -/
def countDigits (s : List Char) : Nat :=
  (s.filter Char.isDigit).length

/-- Digits (with single underscores allowed between digits, as `int`
accepts) to a value; `none` when the shape is invalid. -/
def pyDigitsVal : List Char → Option Nat
  | [] => none
  | [c] => if c.isDigit then some (c.toNat - '0'.toNat) else none
  | c :: '_' :: d :: t =>
    if c.isDigit && d.isDigit then
      match pyDigitsVal (d :: t) with
      | some v => some ((c.toNat - '0'.toNat) * 10 ^ (countDigits (d :: t)) + v)
      | none => none
    else none
  | c :: d :: t =>
    if c.isDigit then
      match pyDigitsVal (d :: t) with
      | some v => some ((c.toNat - '0'.toNat) * 10 ^ (countDigits (d :: t)) + v)
      | none => none
    else none

/-- Python `int(s, 10)`: optional surrounding whitespace, optional sign,
then decimal digits (single underscores permitted between digits). -/
def pyIntOfString (s : List Char) : Option Int :=
  let t := pyStrip s
  match t with
  | '-' :: rest => (pyDigitsVal rest).map (fun v => -(v : Int))
  | '+' :: rest => (pyDigitsVal rest).map (fun v => (v : Int))
  | rest => (pyDigitsVal rest).map (fun v => (v : Int))

/-! ## Bytes and UTF-8

Bytes are `Nat` values below 256.  `utf8Decode` models Python
`bytes.decode()` with the default strict error handling, rejecting overlong
encodings, surrogates and out-of-range values exactly as CPython does. -/

/-- Is `b` a UTF-8 continuation byte (`0x80-0xBF`)? -/
def isCont (b : Nat) : Bool :=
  128 ≤ b && b ≤ 191

/-- Value carried by a continuation byte. -/
def contVal (b : Nat) : Nat :=
  b - 128

/-- Strict UTF-8 decoding of a byte list (Python `bytes.decode()`),
`none` on any invalid sequence. -/
def utf8Decode : List Nat → Option (List Char)
  | [] => some []
  | b :: t =>
    if b < 128 then
      (utf8Decode t).map (fun r => Char.ofNat b :: r)
    else if 194 ≤ b && b ≤ 223 then
      match t with
      | b2 :: t2 =>
        if isCont b2 then
          (utf8Decode t2).map (fun r => Char.ofNat ((b - 192) * 64 + contVal b2) :: r)
        else none
      | _ => none
    else if 224 ≤ b && b ≤ 239 then
      match t with
      | b2 :: b3 :: t2 =>
        let lo2 := if b = 224 then 160 else 128
        let hi2 := if b = 237 then 159 else 191
        if (lo2 ≤ b2 && b2 ≤ hi2) && isCont b3 then
          (utf8Decode t2).map
            (fun r => Char.ofNat ((b - 224) * 4096 + contVal b2 * 64 + contVal b3) :: r)
        else none
      | _ => none
    else if 240 ≤ b && b ≤ 244 then
      match t with
      | b2 :: b3 :: b4 :: t2 =>
        let lo2 := if b = 240 then 144 else 128
        let hi2 := if b = 244 then 143 else 191
        if (lo2 ≤ b2 && b2 ≤ hi2) && (isCont b3 && isCont b4) then
          (utf8Decode t2).map
            (fun r =>
              Char.ofNat ((b - 240) * 262144 + contVal b2 * 4096 +
                contVal b3 * 64 + contVal b4) :: r)
        else none
      | _ => none
    else none

/-- UTF-8 decoding with Python `errors="replace"`: invalid sequences become
U+FFFD; the model consumes one byte per replacement, which is faithful for
the ASCII-only data the source feeds through this path. -/
def utf8DecodeReplace : List Nat → List Char
  | [] => []
  | b :: t =>
    if b < 128 then Char.ofNat b :: utf8DecodeReplace t
    else
      match utf8Decode (b :: t) with
      | some r => r
      | none => '�' :: utf8DecodeReplace t

/-! ## `base64.b64decode`

The source always calls `base64.b64decode(s + "=" * (-len(s) % 4))` with
`validate=False`, which is CPython `binascii.a2b_base64` in non-strict
mode: characters outside the base64 alphabet are skipped; a pad character
is ignored while fewer than two alphabet characters of the current quad
have been seen (or when exactly two have been seen and the next valid
character is not a pad), and otherwise terminates decoding; an input that
ends mid-quad raises `binascii.Error` ("Incorrect padding"). -/

/-- Base64 alphabet value of a character. -/
def b64Val (c : Char) : Option Nat :=
  if 'A' ≤ c && c ≤ 'Z' then some (c.toNat - 'A'.toNat)
  else if 'a' ≤ c && c ≤ 'z' then some (c.toNat - 'a'.toNat + 26)
  else if '0' ≤ c && c ≤ '9' then some (c.toNat - '0'.toNat + 52)
  else if c = '+' then some 62
  else if c = '/' then some 63
  else none

/-- The next character that is either in the base64 alphabet or a pad
(`binascii_find_valid` with `num = 1`: the valid character after the
current one). -/
def b64NextValid : List Char → Option Char
  | [] => none
  | c :: t => if (b64Val c).isSome || c = '=' then some c else b64NextValid t

/-- Main loop of `a2b_base64` (non-strict): `qp` is the number of alphabet
characters seen in the current quad, `buf` holds `2 * qp mod 8` leftover
bits.  Returns the decoded bytes or `none` for the "Incorrect padding"
error. -/
def a2bLoop : List Char → Nat → Nat → Nat → List Nat → Option (List Nat)
  | [], qp, _, _, out => if qp % 4 = 0 then some out.reverse else none
  | c :: t, qp, nbits, buf, out =>
    if c = '=' then
      if qp % 4 < 2 || (qp % 4 = 2 && b64NextValid t ≠ some '=') then
        a2bLoop t qp nbits buf out
      else some out.reverse
    else
      match b64Val c with
      | none => a2bLoop t qp nbits buf out
      | some v =>
        let buf' := buf * 64 + v
        let nbits' := nbits + 6
        if nbits' ≥ 8 then
          a2bLoop t (qp + 1) (nbits' - 8) (buf' % 2 ^ (nbits' - 8))
            ((buf' / 2 ^ (nbits' - 8)) :: out)
        else
          a2bLoop t (qp + 1) nbits' buf' out

/-- `base64.b64decode(s)` with `validate=False`. -/
def b64decode (s : List Char) : Option (List Nat) :=
  a2bLoop s 0 0 0 []

/-- The padding the source appends before decoding:
`s + "=" * (-len(s) % 4)`. -/
def padB64 (s : List Char) : List Char :=
  s ++ List.replicate ((4 - s.length % 4) % 4) '='

/-! ## JSON values and `json.loads`

`PyJson` models the Python values produced by `json.loads`: strings,
integers, booleans, `None`, lists and dicts (assoc lists; duplicate keys
overwrite in place as dict insertion does).  Fractional or exponent
number literals are outside the model (the parser fails on them); none of
the configuration fields the source reads use them. -/

inductive PyJson where
  | str : String → PyJson
  | num : Int → PyJson
  | bool : Bool → PyJson
  | null : PyJson
  | arr : List PyJson → PyJson
  | obj : List (String × PyJson) → PyJson

/-- Dict insertion: an existing key keeps its position and gets the new
value, a new key is appended (CPython dict semantics). -/
def objInsert (fs : List (String × PyJson)) (k : String) (v : PyJson) :
    List (String × PyJson) :=
  match fs with
  | [] => [(k, v)]
  | (k0, v0) :: t =>
    if k0 = k then (k0, v) :: t else (k0, v0) :: objInsert t k v

/-- Dict lookup (`d.get(k)` without default). -/
def jsonLookup (fs : List (String × PyJson)) (k : String) : Option PyJson :=
  match fs with
  | [] => none
  | (k0, v0) :: t => if k0 = k then some v0 else jsonLookup t k

/-- JSON whitespace skip. -/
def jsonWs (s : List Char) : List Char :=
  s.dropWhile (fun c => c = ' ' || c = '\t' || c = '\n' || c = '\r')

/-- Is `c` an ASCII hex digit? -/
def isHexChar (c : Char) : Bool :=
  ('0' ≤ c && c ≤ '9') || ('a' ≤ c && c ≤ 'f') || ('A' ≤ c && c ≤ 'F')

/-- Hex digit value. -/
def hexVal (c : Char) : Nat :=
  if '0' ≤ c && c ≤ '9' then c.toNat - '0'.toNat
  else if 'a' ≤ c && c ≤ 'f' then c.toNat - 'a'.toNat + 10
  else c.toNat - 'A'.toNat + 10

/-- Body of a JSON string literal (after the opening quote): returns the
decoded characters and the remainder after the closing quote.  Control
characters below 0x20 are rejected, escapes are decoded; `\uXXXX` is
accepted for non-surrogate scalars (lone surrogates are outside the
model). -/
def jsonStringBody : List Char → Option (List Char × List Char)
  | [] => none
  | '"' :: t => some ([], t)
  | '\\' :: e :: t =>
    let simple : Char → Option Char := fun c =>
      match c with
      | '"' => some '"'
      | '\\' => some '\\'
      | '/' => some '/'
      | 'b' => some (Char.ofNat 8)
      | 'f' => some (Char.ofNat 12)
      | 'n' => some '\n'
      | 'r' => some (Char.ofNat 13)
      | 't' => some '\t'
      | _ => none
    (match simple e with
     | some c =>
       match jsonStringBody t with
       | some (r, rest) => some (c :: r, rest)
       | none => none
     | none =>
       if e = 'u' then
         match t with
         | h1 :: h2 :: h3 :: h4 :: t2 =>
           if isHexChar h1 && isHexChar h2 && isHexChar h3 && isHexChar h4 then
             let n := ((hexVal h1 * 16 + hexVal h2) * 16 + hexVal h3) * 16 + hexVal h4
             if 55296 ≤ n && n ≤ 57343 then none
             else
               match jsonStringBody t2 with
               | some (r, rest) => some (Char.ofNat n :: r, rest)
               | none => none
           else none
         | _ => none
       else none)
  | c :: t =>
    if c.toNat < 32 then none
    else
      match jsonStringBody t with
      | some (r, rest) => some (c :: r, rest)
      | none => none

/-- JSON integer literal: optional minus, `0` or a nonzero-led digit run;
fails when a fraction or exponent follows (unmodelled). -/
def jsonNum (s : List Char) : Option (Int × List Char) :=
  let core : List Char → Option (Nat × List Char) := fun u =>
    match u with
    | '0' :: t => some (0, t)
    | c :: _ =>
      if c.isDigit && c ≠ '0' then
        let digits := u.takeWhile Char.isDigit
        match pyDigitsVal digits with
        | some v => some (v, u.dropWhile Char.isDigit)
        | none => none
      else none
    | [] => none
  let withSign : Option (Int × List Char) :=
    match s with
    | '-' :: t => (core t).map (fun p => (-(p.1 : Int), p.2))
    | _ => (core s).map (fun p => ((p.1 : Int), p.2))
  match withSign with
  | some (v, rest) =>
    match rest with
    | c :: _ => if c = '.' || c = 'e' || c = 'E' then none else some (v, rest)
    | [] => some (v, rest)
  | none => none

mutual

/-- Fuel-indexed JSON value parsing; the fuel strictly exceeds the input
length at the top call, and every recursive call consumes at least one
character, so fuel never runs out on real input. -/
def jsonVal (fuel : Nat) (s : List Char) : Option (PyJson × List Char) :=
  match fuel with
  | 0 => none
  | fuel + 1 =>
    match jsonWs s with
    | '{' :: t => jsonObjFields fuel (jsonWs t) true
    | '[' :: t => jsonArrItems fuel (jsonWs t) true
    | '"' :: t => (jsonStringBody t).map (fun p => (.str (String.mk p.1), p.2))
    | 't' :: 'r' :: 'u' :: 'e' :: t => some (.bool true, t)
    | 'f' :: 'a' :: 'l' :: 's' :: 'e' :: t => some (.bool false, t)
    | 'n' :: 'u' :: 'l' :: 'l' :: t => some (.null, t)
    | u => (jsonNum u).map (fun p => (.num p.1, p.2))

/-- Object fields after `{` (whitespace skipped); `first` marks whether a
closing `}` may come immediately. -/
def jsonObjFields (fuel : Nat) (s : List Char) (first : Bool) :
    Option (PyJson × List Char) :=
  match fuel with
  | 0 => none
  | fuel + 1 =>
    match s, first with
    | '}' :: t, true => some (.obj [], t)
    | _, _ =>
      match jsonObjRest fuel s [] with
      | some (fs, rest) => some (.obj fs, rest)
      | none => none

/-- Parse `"key": value (, "key": value)* }`, accumulating with dict
insertion semantics. -/
def jsonObjRest (fuel : Nat) (s : List Char) (acc : List (String × PyJson)) :
    Option (List (String × PyJson) × List Char) :=
  match fuel with
  | 0 => none
  | fuel + 1 =>
    match jsonWs s with
    | '"' :: t =>
      match jsonStringBody t with
      | some (k, rest) =>
        match jsonWs rest with
        | ':' :: rest2 =>
          match jsonVal fuel rest2 with
          | some (v, rest3) =>
            let acc2 := objInsert acc (String.mk k) v
            match jsonWs rest3 with
            | ',' :: rest4 => jsonObjRest fuel rest4 acc2
            | '}' :: rest4 => some (acc2, rest4)
            | _ => none
          | none => none
        | _ => none
      | none => none
    | _ => none

/-- Array items after `[` (whitespace skipped). -/
def jsonArrItems (fuel : Nat) (s : List Char) (first : Bool) :
    Option (PyJson × List Char) :=
  match fuel with
  | 0 => none
  | fuel + 1 =>
    match s, first with
    | ']' :: t, true => some (.arr [], t)
    | _, _ =>
      match jsonArrRest fuel s [] with
      | some (xs, rest) => some (.arr xs, rest)
      | none => none

/-- Parse `value (, value)* ]`. -/
def jsonArrRest (fuel : Nat) (s : List Char) (acc : List PyJson) :
    Option (List PyJson × List Char) :=
  match fuel with
  | 0 => none
  | fuel + 1 =>
    match jsonVal fuel s with
    | some (v, rest) =>
      match jsonWs rest with
      | ',' :: rest2 => jsonArrRest fuel rest2 (acc ++ [v])
      | ']' :: rest2 => some (acc ++ [v], rest2)
      | _ => none
    | none => none

end

/-- `json.loads` on decoded text: one value, only whitespace may follow. -/
def jsonLoads (s : List Char) : Option PyJson :=
  match jsonVal (s.length + 1) s with
  | some (v, rest) => if jsonWs rest = [] then some v else none
  | none => none

/-- `json.loads` on bytes: strict UTF-8 decoding then parsing (any
failure is an exception in Python; callers catch it). -/
def jsonLoadsBytes (b : List Nat) : Option PyJson :=
  match utf8Decode b with
  | some chars => jsonLoads chars
  | none => none

/-! ## Python exceptions -/

/-- The exception kinds the embedded code can raise. -/
inductive PyErr where
  | valueError
  | typeError
  | attributeError
  | osError
deriving DecidableEq, Repr

/-- `str(e)` for a modelled exception, used where the source interpolates
the exception into a message. -/
def pyErrStr : PyErr → String
  | .valueError => "ValueError"
  | .typeError => "TypeError"
  | .attributeError => "AttributeError"
  | .osError => "OSError"

/-! ## `urllib.parse.urlparse` / `parse_qs`

The source always parses `f"https://{server_info}"`, so the scheme is
fixed and the netloc is the prefix of `server_info` before the first of
`/?#`.  `urlsplit` raises `ValueError` when the netloc contains `[` or `]`
unbalanced; the `port` property raises `ValueError` when the port segment
is non-numeric or outside 0..65535; `hostname` lowercases. -/

structure UrlSplit where
  netloc : List Char
  query : List Char

/-- `urlparse("https://" + server_info)`, keeping the two components the
source reads. -/
def pyUrlparseHttps (server_info : List Char) : Except PyErr UrlSplit :=
  let netloc := server_info.takeWhile (fun c => !(c = '/' || c = '?' || c = '#'))
  let rest := server_info.drop netloc.length
  if (netloc.contains '[') != (netloc.contains ']') then
    .error .valueError
  else
    let preFrag := (partitionChar rest '#').1
    let query := (partitionChar preFrag '?').2
    .ok ⟨netloc, query⟩

/-- `_hostinfo`: hostname part and raw port part of a netloc. -/
def urlHostinfo (netloc : List Char) : List Char × Option (List Char) :=
  let hostinfo := afterLastChar netloc '@'
  let (host, port) :=
    if hostinfo.contains '[' then
      let bracketed := (partitionChar hostinfo '[').2
      let p := partitionChar bracketed ']'
      (p.1, (partitionChar p.2 ':').2)
    else
      partitionChar hostinfo ':'
  (host, if port = [] then none else some port)

/-- The `hostname` property: lowercased, `None` when empty. -/
def urlHostname (netloc : List Char) : Option String :=
  let h := (urlHostinfo netloc).1
  if h = [] then none else some (String.mk (pyLower h))

/-- The `port` property: `None` when absent, `ValueError` when the segment
is non-numeric or out of range. -/
def urlPort (netloc : List Char) : Except PyErr (Option Int) :=
  match (urlHostinfo netloc).2 with
  | none => .ok none
  | some p =>
    match pyIntOfString p with
    | none => .error .valueError
    | some v => if 0 ≤ v && v ≤ 65535 then .ok (some v) else .error .valueError

/-- `int(parsed.port or 443)` — `None` and the falsy port 0 give 443. -/
def urlPortOr443 (netloc : List Char) : Except PyErr Int :=
  match urlPort netloc with
  | .error e => .error e
  | .ok none => .ok 443
  | .ok (some p) => if p = 0 then .ok 443 else .ok p

/-- `parsed.hostname or ""`. -/
def urlHostnameOrEmpty (netloc : List Char) : String :=
  (urlHostname netloc).getD ""

/-- `urllib.parse.unquote` with the default UTF-8 / replace handling:
`%XX` escapes and literal ASCII characters form byte runs decoded
together; non-ASCII characters flush the run and pass through. -/
def pyUnquoteGo : List Char → List Nat → List Char
  | [], acc => utf8DecodeReplace acc.reverse
  | '%' :: h1 :: h2 :: t, acc =>
    if isHexChar h1 && isHexChar h2 then
      pyUnquoteGo t ((hexVal h1 * 16 + hexVal h2) :: acc)
    else
      pyUnquoteGo (h1 :: h2 :: t) ('%'.toNat :: acc)
  | c :: t, acc =>
    if c.toNat < 128 then pyUnquoteGo t (c.toNat :: acc)
    else utf8DecodeReplace acc.reverse ++ c :: pyUnquoteGo t []

/-- `unquote_plus` as `parse_qsl` applies it: `+` to space, then
percent-decoding. -/
def pyUnquotePlus (s : List Char) : List Char :=
  pyUnquoteGo (s.map (fun c => if c = '+' then ' ' else c)) []

/-- `urllib.parse.parse_qs` restricted to how the source reads it: the
ordered pairs (duplicates kept).  Empty pairs are skipped, pairs without
`=` and pairs with an empty value are dropped
(`keep_blank_values=False`). -/
def parse_qs (query : List Char) : List (String × String) :=
  (splitAllChar query '&').foldr
    (fun pair acc =>
      if pair = [] then acc
      else
        match splitFirst pair "=".data with
        | none => acc
        | some (n, v) =>
          if v = [] then acc
          else (String.mk (pyUnquotePlus n), String.mk (pyUnquotePlus v)) :: acc)
    []

/-- `params[k][0]` when `k in params`, else `None`. -/
def qsGet (params : List (String × String)) (k : String) : Option String :=
  match params with
  | [] => none
  | (k0, v0) :: t => if k0 = k then some v0 else qsGet t k

/-! ## The canonical record (`ConfigData`)

Fields populated from decoded vmess JSON keep the raw `PyJson` value, as
the Python dataclass stores whatever `dict.get` returned; fields only
ever assigned parsed strings stay `String`. -/

structure ConfigData where
  type : String
  name : String := ""
  server : PyJson := .str ""
  port : Int := 443
  uuid : PyJson := .str ""
  path : PyJson := .str "/"
  tls : String := "tls"
  network : PyJson := .str "tcp"
  security : String := "none"
  encryption : String := "none"
  host : PyJson := .str ""
  sni : String := ""
  fp : String := ""
  alpn : String := ""
  flow : String := ""
  aid : Int := 0
  method : String := "auto"
  password : String := ""
  headerType : PyJson := .str ""
  xtls : Bool := false
  grpc_service_name : String := ""
  pbk : String := ""
  sid : String := ""

/-- `ConfigData(type=t)` with every other field at its default. -/
def ConfigData.mkDefault (t : String) : ConfigData :=
  { type := t }

/-- Python truthiness of a modelled JSON value. -/
def pyTruthy : PyJson → Bool
  | .str s => s ≠ ""
  | .num n => n ≠ 0
  | .bool b => b
  | .null => false
  | .arr xs => !xs.isEmpty
  | .obj fs => !fs.isEmpty

/-- Python `value == "lit"` for a value of unknown type: true only for the
equal string. -/
def pyEqStr (j : PyJson) (s : String) : Bool :=
  match j with
  | .str t => t = s
  | _ => false

/-- `d.get(k) == "lit"` (`None == "lit"` is false). -/
def pyOptStrEq (j : Option PyJson) (s : String) : Bool :=
  match j with
  | some v => pyEqStr v s
  | none => false

/-- `d.get(k, default)`. -/
def jsonGetD (fs : List (String × PyJson)) (k : String) (d : PyJson) : PyJson :=
  (jsonLookup fs k).getD d

/-- Python `int(x)` for a value obtained from JSON. -/
def pyIntOfJson : PyJson → Except PyErr Int
  | .num n => .ok n
  | .str s =>
    match pyIntOfString s.data with
    | some v => .ok v
    | none => .error .valueError
  | .bool b => .ok (if b then 1 else 0)
  | _ => .error .typeError

/-! ## The four dialect parse functions (checker.py lines 45-179) -/

/-- `decode_vmess_base64` (lines 45-53): strip the scheme, decode with
repaired padding, parse JSON; any failure yields the empty dict. -/
def decode_vmess_base64 (vmess_str : List Char) : PyJson :=
  let s := if pyStartsWith vmess_str "vmess://".data then vmess_str.drop 8 else vmess_str
  match b64decode (padB64 s) with
  | some bytes =>
    match jsonLoadsBytes bytes with
    | some j => j
    | none => .obj []
  | none => .obj []

/-- Overlay helper: `if k in params: field = params[k][0]` for a `String`
field. -/
def qsOverS (params : List (String × String)) (k : String) (d : String) : String :=
  (qsGet params k).getD d

/-- Overlay helper for a field holding a `PyJson` string. -/
def qsOverJ (params : List (String × String)) (k : String) (d : PyJson) : PyJson :=
  match qsGet params k with
  | some v => .str v
  | none => d

/-- `parse_vless` (lines 55-100).  An exception (`ValueError` from
`urlparse` or the `port` property) propagates to the caller. -/
def parse_vless (url0 : String) : Except PyErr ConfigData :=
  let url := pyReplace url0.data "vless://".data []
  if !containsSub url "@".data then .ok (ConfigData.mkDefault "vless")
  else
    match splitFirst url "@".data with
    | none => .ok (ConfigData.mkDefault "vless")
    | some (user_info, server_info) =>
      match pyUrlparseHttps server_info with
      | .error e => .error e
      | .ok parsed =>
      let params := parse_qs parsed.query
      match urlPortOr443 parsed.netloc with
      | .error e => .error e
      | .ok port =>
      .ok
        { type := "vless"
          uuid := .str (String.mk user_info)
          server := .str (urlHostnameOrEmpty parsed.netloc)
          port := port
          network := qsOverJ params "type" (.str "tcp")
          path := qsOverJ params "path" (.str "/")
          security := qsOverS params "security" "none"
          encryption := qsOverS params "encryption" "none"
          host := qsOverJ params "host" (.str "")
          sni := qsOverS params "sni" ""
          fp := qsOverS params "fp" ""
          alpn := qsOverS params "alpn" ""
          flow := qsOverS params "flow" ""
          headerType := qsOverJ params "headerType" (.str "")
          xtls :=
            match qsGet params "xtls" with
            | some v => String.mk (pyLower v.data) = "true"
            | none => false
          grpc_service_name := qsOverS params "serviceName" ""
          pbk := qsOverS params "pbk" ""
          sid := qsOverS params "sid" "" }

/-- Field extraction of `parse_vmess` once the decode produced a dict
(lines 108-119): `int(...)` on a bad port or aid raises. -/
def parse_vmess_fields (fs : List (String × PyJson)) : Except PyErr ConfigData :=
  match pyIntOfJson (jsonGetD fs "port" (.num 443)) with
  | .error e => .error e
  | .ok port =>
  match pyIntOfJson (jsonGetD fs "aid" (.num 0)) with
  | .error e => .error e
  | .ok aid =>
  .ok
    { type := "vmess"
      server := jsonGetD fs "add" (.str "")
      port := port
      uuid := jsonGetD fs "id" (.str "")
      aid := aid
      network := jsonGetD fs "net" (.str "tcp")
      path := jsonGetD fs "path" (.str "/")
      host := jsonGetD fs "host" (.str "")
      tls := if pyOptStrEq (jsonLookup fs "tls") "tls" then "tls" else "none"
      headerType := jsonGetD fs "type" (.str "") }

/-- `parse_vmess` (lines 102-119).  `.get` on a non-dict decode raises
`AttributeError`. -/
def parse_vmess (url : String) : Except PyErr ConfigData :=
  if !pyStartsWith url.data "vmess://".data then .ok (ConfigData.mkDefault "vmess")
  else
    match decode_vmess_base64 url.data with
    | .obj fs => parse_vmess_fields fs
    | _ => .error .attributeError

/-- `parse_trojan` (lines 121-151). -/
def parse_trojan (url0 : String) : Except PyErr ConfigData :=
  if !pyStartsWith url0.data "trojan://".data then .ok (ConfigData.mkDefault "trojan")
  else
    let url := pyReplace url0.data "trojan://".data []
    if !containsSub url "@".data then .ok (ConfigData.mkDefault "trojan")
    else
      match splitFirst url "@".data with
      | none => .ok (ConfigData.mkDefault "trojan")
      | some (password, server_info) =>
        match pyUrlparseHttps server_info with
        | .error e => .error e
        | .ok parsed =>
        let params := parse_qs parsed.query
        match urlPortOr443 parsed.netloc with
        | .error e => .error e
        | .ok port =>
        .ok
          { type := "trojan"
            password := String.mk password
            server := .str (urlHostnameOrEmpty parsed.netloc)
            port := port
            network := qsOverJ params "type" (.str "tcp")
            path := qsOverJ params "path" (.str "/")
            security := qsOverS params "security" "none"
            sni := qsOverS params "sni" ""
            headerType := qsOverJ params "headerType" (.str "") }

/-- The tail both shadowsocks shapes share: parse the server info and
build the record; any exception is caught by the bare `except`. -/
def ss_finish (method password server_info : List Char) : Option ConfigData :=
  match pyUrlparseHttps server_info with
  | .error _ => none
  | .ok parsed =>
    match urlPortOr443 parsed.netloc with
    | .error _ => none
    | .ok port =>
      some
        { type := "shadowsocks"
          method := String.mk method
          password := String.mk password
          server := .str (urlHostnameOrEmpty parsed.netloc)
          port := port }

/-- Shape A (lines 160-163): split on `@`, base64-decode the left side,
split the decoded text on the first `:`. -/
def ss_shapeA (url : List Char) : Option ConfigData := do
  let (user_info, server_info) ← splitFirst url "@".data
  let bytes ← b64decode (padB64 user_info)
  let decoded ← utf8Decode bytes
  let (method, password) ← splitFirst decoded ":".data
  ss_finish method password server_info

/-- Shape B (lines 164-167): base64-decode the whole remainder, split on
the first `:`, then split the rest on the first `@`. -/
def ss_shapeB (url : List Char) : Option ConfigData := do
  let bytes ← b64decode (padB64 url)
  let decoded ← utf8Decode bytes
  let (method, rest) ← splitFirst decoded ":".data
  let (password, server_info) ← splitFirst rest "@".data
  ss_finish method password server_info

/-- `parse_shadowsocks` (lines 153-179): the `try` block runs Shape A when
the remainder contains `@` and Shape B otherwise; the bare `except` turns
any failure into the empty-fields fallback. -/
def parse_shadowsocks (url0 : String) : ConfigData :=
  if !pyStartsWith url0.data "ss://".data then ConfigData.mkDefault "shadowsocks"
  else
    let url := pyReplace url0.data "ss://".data []
    if containsSub url "@".data then
      (ss_shapeA url).getD (ConfigData.mkDefault "shadowsocks")
    else
      (ss_shapeB url).getD (ConfigData.mkDefault "shadowsocks")

/-- The algorithm as the specification words it: attempt Shape A first and,
on any failure of Shape A, attempt Shape B; only when both fail return the
fallback.  Stated for comparison with `parse_shadowsocks`. -/
def parse_shadowsocks_spec (url0 : String) : ConfigData :=
  if !pyStartsWith url0.data "ss://".data then ConfigData.mkDefault "shadowsocks"
  else
    let url := pyReplace url0.data "ss://".data []
    match ss_shapeA url with
    | some c => c
    | none => (ss_shapeB url).getD (ConfigData.mkDefault "shadowsocks")

/-! ## Engine config renderer (`config_to_json`, lines 181-321)

The rendered document is a `PyJson`.  Python assembles `xray_config` as a
dict and then conditionally adds keys; every key added is fresh, so the
insertion sequence is modelled as list concatenation in insertion order.
The file write at lines 317-319 is modelled as an explicit write trace:
`config_to_json` returns the document together with the list of
(filename, contents) writes it performs. -/

/-- `config.sni or config.host or config.server` (line 220). -/
def tlsServerName (config : ConfigData) : PyJson :=
  if config.sni ≠ "" then .str config.sni
  else if pyTruthy config.host then config.host
  else config.server

/-- `config.fp or "firefox"`. -/
def fpOrFirefox (config : ConfigData) : String :=
  if config.fp = "" then "firefox" else config.fp

/-- The `tlsSettings` overlay (lines 219-223). -/
def tlsSettingsObj (config : ConfigData) : PyJson :=
  .obj
    [("serverName", tlsServerName config),
     ("fingerprint", .str (fpOrFirefox config)),
     ("alpn", .arr (if config.alpn = "" then [] else [.str config.alpn]))]

/-- The `xtlsSettings` overlay (lines 224-227). -/
def xtlsSettingsObj (config : ConfigData) : PyJson :=
  .obj [("serverName", tlsServerName config)]

/-- The `realitySettings` overlay (lines 230-236). -/
def realitySettingsObj (config : ConfigData) : PyJson :=
  .obj
    [("publicKey", .str config.pbk),
     ("shortId", .str config.sid),
     ("serverName", .str config.sni),
     ("fingerprint", .str (fpOrFirefox config))]

/-- The static HTTP-camouflage `tcpSettings` (lines 240-259). -/
def tcpSettingsObj (config : ConfigData) : PyJson :=
  .obj
    [("header", .obj
      [("type", .str "http"),
       ("request", .obj
         [("version", .str "1.1"),
          ("method", .str "GET"),
          ("path", .arr (if pyTruthy config.path then [config.path] else [.str "/"])),
          ("headers", .obj
            [("Host", .arr (if pyTruthy config.host then [config.host] else [])),
             ("User-Agent", .arr
               [.str "Mozilla/5.0 (Windows NT 10.0; WOW64) AppleWebKit/537.36 (KHTML, like Gecko) Chrome/53.0.2785.143 Safari/537.36",
                .str "Mozilla/5.0 (iPhone; CPU iPhone OS 10_0_2 like Mac OS X) AppleWebKit/601.1 (KHTML, like Gecko) CriOS/53.0.2785.109 Mobile/14A456 Safari/601.1.46"]),
             ("Accept-Encoding", .arr [.str "gzip, deflate"]),
             ("Connection", .arr [.str "keep-alive"]),
             ("Pragma", .str "no-cache")])])])]

/-- The transport overlay selected by `network` (lines 239-279). -/
def transportFields (config : ConfigData) : List (String × PyJson) :=
  if pyEqStr config.network "tcp" && pyEqStr config.headerType "http" then
    [("tcpSettings", tcpSettingsObj config)]
  else if pyEqStr config.network "ws" then
    [("wsSettings", .obj
      [("path", config.path),
       ("headers", .obj [("Host", config.host)])])]
  else if pyEqStr config.network "grpc" then
    [("grpcSettings", .obj
      [("serviceName", .str config.grpc_service_name),
       ("multiMode", .bool false)])]
  else if pyEqStr config.network "quic" then
    [("quicSettings", .obj
      [("security", .str config.security),
       ("key", .str config.password),
       ("header", .obj [("type", config.headerType)])])]
  else []

/-- `streamSettings` after all conditional key insertions
(lines 210-279). -/
def streamSettingsFields (config : ConfigData) : List (String × PyJson) :=
  [("network", config.network), ("security", .str config.security)]
    ++ (if config.security ≠ "none" then [("tlsSettings", tlsSettingsObj config)] else [])
    ++ (if config.xtls then [("xtlsSettings", xtlsSettingsObj config)] else [])
    ++ (if config.security = "reality" then [("realitySettings", realitySettingsObj config)] else [])
    ++ transportFields config

/-- The outbound `settings` block, per `config.type` (lines 281-315). -/
def outboundSettingsFields (config : ConfigData) : List (String × PyJson) :=
  if config.type = "vless" then
    [("vnext", .arr
      [.obj
        [("address", config.server),
         ("port", .num config.port),
         ("users", .arr
           [.obj
             [("id", config.uuid),
              ("encryption", .str config.encryption),
              ("flow", .str (if config.flow ≠ "" then config.flow else ""))]])]])]
  else if config.type = "vmess" then
    [("vnext", .arr
      [.obj
        [("address", config.server),
         ("port", .num config.port),
         ("users", .arr
           [.obj
             [("id", config.uuid),
              ("alterId", .num config.aid),
              ("security", .str "auto")]])]])]
  else if config.type = "trojan" then
    [("servers", .arr
      [.obj
        [("address", config.server),
         ("port", .num config.port),
         ("password", .str config.password)]])]
  else if config.type = "shadowsocks" then
    [("servers", .arr
      [.obj
        [("address", config.server),
         ("port", .num config.port),
         ("method", .str config.method),
         ("password", .str config.password)]])]
  else []

/-- The full rendered document for a parsed record (lines 199-315). -/
def build_xray_config (config : ConfigData) (inbound_port : Int) : PyJson :=
  .obj
    [("inbounds", .arr
      [.obj
        [("port", .num inbound_port),
         ("protocol", .str "socks"),
         ("settings", .obj [("udp", .bool true)])]]),
     ("outbounds", .arr
       [.obj
         [("protocol", .str config.type),
          ("settings", .obj (outboundSettingsFields config)),
          ("streamSettings", .obj (streamSettingsFields config))]])]

/-- The dict the unsupported-scheme branch returns (line 197). -/
def unsupportedFormatObj : PyJson :=
  .obj [("error", .str "Unsupported config format")]

/-- `config_to_json(config_url, inbound_port, output_filename)`: dispatch
on the scheme prefix, build the document, write it to `output_filename`
(the write trace is the second component), and return it.  A parse
exception propagates; the unsupported branch returns before the write, so
its trace is empty. -/
def config_to_json_render (config : ConfigData) (inbound_port : Int)
    (output_filename : String) : PyJson × List (String × PyJson) :=
  let doc := build_xray_config config inbound_port
  (doc, [(output_filename, doc)])

/-- `config_to_json` proper: scheme dispatch, then render and write. -/
def config_to_json (config_url : String) (inbound_port : Int)
    (output_filename : String) : Except PyErr (PyJson × List (String × PyJson)) :=
  if pyStartsWith config_url.data "vless://".data then
    (parse_vless config_url).map (config_to_json_render · inbound_port output_filename)
  else if pyStartsWith config_url.data "vmess://".data then
    (parse_vmess config_url).map (config_to_json_render · inbound_port output_filename)
  else if pyStartsWith config_url.data "trojan://".data then
    (parse_trojan config_url).map (config_to_json_render · inbound_port output_filename)
  else if pyStartsWith config_url.data "ss://".data then
    .ok (config_to_json_render (parse_shadowsocks config_url) inbound_port output_filename)
  else
    .ok (unsupportedFormatObj, [])

/-! ## `ipaddress.ip_address` validity

`ip_address(s)` succeeds iff `s` parses as an `IPv4Address` or as an
`IPv6Address`, per CPython `_ip_int_from_string` (including the
no-leading-zero octet rule, the single `::` rule, embedded IPv4 in the
last hextet, and the `%scope` suffix for IPv6). -/

/-- One dotted-quad octet: non-empty ASCII digits, at most 3, no leading
zero, value at most 255. -/
def ipv4OctetValid (p : List Char) : Bool :=
  !p.isEmpty && p.all Char.isDigit && p.length ≤ 3 &&
    (p = ['0'] || p.head? ≠ some '0') && (pyDigitsVal p).getD 256 ≤ 255

/-- `IPv4Address` acceptance. -/
def ipv4Valid (s : List Char) : Bool :=
  let parts := splitAllChar s '.'
  parts.length = 4 && parts.all ipv4OctetValid

/-- One hextet: 1-4 hex digits. -/
def hextetValid (p : List Char) : Bool :=
  !p.isEmpty && p.length ≤ 4 && p.all isHexChar

/-- `IPv6Address` acceptance on the `:`-split parts (scope already
removed). -/
def ipv6PartsValid (parts0 : List (List Char)) : Bool :=
  if parts0.length < 3 then false
  else
    let embedded :=
      match parts0.getLast? with
      | some lastP =>
        if lastP.contains '.' then
          if ipv4Valid lastP then some (parts0.dropLast ++ [['0'], ['0']]) else none
        else some parts0
      | none => none
    match embedded with
    | none => false
    | some parts =>
      if parts.length > 9 then false
      else
        let interior := (parts.drop 1).dropLast
        let empties := interior.filter List.isEmpty
        if empties.length > 1 then false
        else if empties.length = 1 then
          let skip_index := 1 + interior.findIdx List.isEmpty
          let headEmpty := parts.head? = some []
          let lastEmpty := parts.getLast? = some []
          let parts_hi := if headEmpty then skip_index - 1 else skip_index
          let parts_lo0 := parts.length - skip_index - 1
          let parts_lo := if lastEmpty then parts_lo0 - 1 else parts_lo0
          if headEmpty && parts_hi ≠ 0 then false
          else if lastEmpty && parts_lo ≠ 0 then false
          else if (8 : Int) - ((parts_hi : Int) + (parts_lo : Int)) < 1 then false
          else
            (parts.take parts_hi).all hextetValid &&
              (parts.drop (parts.length - parts_lo)).all hextetValid
        else
          parts.length = 8 && parts.head? ≠ some [] && parts.getLast? ≠ some [] &&
            parts.all hextetValid

/-- `IPv6Address` acceptance including the optional `%scope` suffix. -/
def ipv6Valid (s : List Char) : Bool :=
  match splitFirst s "%".data with
  | none => ipv6PartsValid (splitAllChar s ':')
  | some (addr, scope) =>
    !scope.isEmpty && !scope.contains '%' && ipv6PartsValid (splitAllChar addr ':')

/-- `ipaddress.ip_address(s)` does not raise. -/
def ip_address_valid (s : String) : Bool :=
  ipv4Valid s.data || ipv6Valid s.data

/-! ## Result ledger (`save_working_config`, lines 342-361, and the
membership check inside `test_config`, lines 421-435)

The ledger file is a list of lines; membership is tested against the
stripped lines (`set(line.strip() for line in f)`), and an absent file
behaves as empty. -/

/-- `save_working_config`: append the config line unless its stripped form
is already present. -/
def save_working_config (lines : List String) (config : String) : List String :=
  if (lines.map pyStripS).contains config then lines
  else lines ++ [config]

/-- The ledger interaction of one successful trial (lines 421-435): check
the file, report `already_exists` accordingly, and append through
`save_working_config` only when absent. -/
def test_config_ledger_step (lines : List String) (config : String) :
    List String × Bool :=
  if (lines.map pyStripS).contains config then (lines, true)
  else (save_working_config lines config, false)

/-! ## Trial runner (`test_config`, lines 363-479)

The process and network interactions are captured by `TrialEnv`: whether
the engine (`./xray`) spawn raises, whether the probe (`curl`) spawn
raises, and the probe outcome (timeout or the response body).  The inner
`try` (lines 391-464) converts its exceptions into result dicts; the
outer `try` (line 369) has only a `finally`, so exceptions raised by
`config_to_json` or by `subprocess.Popen` propagate out of `test_config`
— the model returns them as `.error`. -/

/-- `"error" in config` for the rendered document. -/
def jsonHasKey (j : PyJson) (k : String) : Bool :=
  match j with
  | .obj fs => (jsonLookup fs k).isSome
  | _ => false

/-- `config["error"]` as a string (the only use reads the literal the
unsupported branch stored). -/
def jsonKeyStr (j : PyJson) (k : String) : String :=
  match j with
  | .obj fs =>
    match jsonLookup fs k with
    | some (.str m) => m
    | _ => ""
  | _ => ""

/-- One trial's outcome dict (the keys the source puts in each return). -/
structure TrialResult where
  config : String
  status : String
  message : Option String := none
  ip : Option String := none
  port : Option Int := none
  already_exists : Option Bool := none
deriving DecidableEq, Repr

/-- Probe outcome: `asyncio.TimeoutError` or the curl stdout body. -/
inductive ProbeOutcome where
  | timeout
  | output : String → ProbeOutcome

/-- External-world outcomes of one trial: engine spawn, probe spawn,
probe result, and the ledger file contents (`none` = file absent). -/
structure TrialEnv where
  xray_spawn : Except PyErr Unit
  curl_spawn : Except PyErr Unit
  probe : ProbeOutcome
  ledger : Option (List String)

/-- Classification and ledger interaction of a received body
(lines 401-449). -/
def classify_body (config_url : String) (port : Int) (body : String)
    (ledger : Option (List String)) : TrialResult × Option (List String) :=
  if body ≠ "" then
    let output := pyStripS body
    if containsSub (pyLower output.data) "<html".data ||
        containsSub (pyLower output.data) "<!doctype".data then
      ({ config := config_url, status := "failed",
         message := some "Received HTML response instead of IP",
         port := some port }, ledger)
    else if !ip_address_valid output then
      ({ config := config_url, status := "failed",
         message := some ("Invalid IP: " ++ output),
         port := some port }, ledger)
    else
      match ledger with
      | some lines =>
        if (lines.map pyStripS).contains config_url then
          ({ config := config_url, status := "success", ip := some output,
             port := some port, already_exists := some true }, ledger)
        else
          ({ config := config_url, status := "success", ip := some output,
             port := some port, already_exists := some false },
           some (save_working_config lines config_url))
      | none =>
        ({ config := config_url, status := "success", ip := some output,
           port := some port, already_exists := some false },
         some (save_working_config [] config_url))
  else
    ({ config := config_url, status := "failed",
       message := some "No response from IP check service",
       port := some port }, ledger)

/-- The part of `test_config` after a successful render (lines 372-464):
the unsupported-format early return, the engine spawn (whose exception is
not caught), and the inner `try` around the probe. -/
def test_config_rendered (config_url : String) (port : Int) (env : TrialEnv)
    (cfg : PyJson) : Except PyErr TrialResult × Option (List String) :=
  if jsonHasKey cfg "error" then
    (.ok { config := config_url, status := "error",
           message := some (jsonKeyStr cfg "error") }, env.ledger)
  else
    match env.xray_spawn with
    | .error e => (.error e, env.ledger)
    | .ok () =>
      match env.curl_spawn with
      | .error e =>
        (.ok { config := config_url, status := "error",
               message := some (pyErrStr e), port := some port }, env.ledger)
      | .ok () =>
        match env.probe with
        | .timeout =>
          (.ok { config := config_url, status := "failed",
                 message := some "Connection timeout",
                 port := some port }, env.ledger)
        | .output body =>
          (.ok (classify_body config_url port body env.ledger).1,
           (classify_body config_url port body env.ledger).2)

/-- `test_config(config_url, port)` under environment `env`.  The first
component is the returned dict, or `.error e` when an exception escapes
the function; the second is the ledger file afterwards. -/
def test_config (config_url : String) (port : Int) (env : TrialEnv) :
    Except PyErr TrialResult × Option (List String) :=
  match config_to_json config_url port "config_output.json" with
  | .error e => (.error e, env.ledger)
  | .ok (cfg, _) => test_config_rendered config_url port env cfg

/-! ## Batch orchestration (`test_config_batch`, lines 481-491, and the
chunking in `main`, lines 574-591) -/

/-- The port `test_config_batch` assigns to the endpoint at index `i`
(line 486): `start_port + (i % batch_size)`. -/
def batch_port (start_port : Int) (batch_size i : Nat) : Int :=
  start_port + (i % batch_size : Nat)

/-- The ports assigned across one call of `test_config_batch`. -/
def test_config_batch_ports (configs : List String) (start_port : Int)
    (batch_size : Nat) : List Int :=
  (List.range configs.length).map (batch_port start_port batch_size)

/-- The chunk `main` passes to batch `batch_num`
(`configs[start_idx:end_idx]`, lines 577-580). -/
def main_chunk (configs : List String) (batch_size batch_num : Nat) :
    List String :=
  (configs.drop (batch_num * batch_size)).take batch_size


/-! ## Generic instances and helper lemmas -/

set_option maxHeartbeats 4000000

instance {ε α : Type} [DecidableEq ε] [DecidableEq α] : DecidableEq (Except ε α) :=
  fun x y =>
    match x, y with
    | .ok a, .ok b =>
      if h : a = b then .isTrue (by rw [h]) else .isFalse (fun hc => by cases hc; exact h rfl)
    | .error a, .error b =>
      if h : a = b then .isTrue (by rw [h]) else .isFalse (fun hc => by cases hc; exact h rfl)
    | .ok _, .error _ => .isFalse (fun hc => by cases hc)
    | .error _, .ok _ => .isFalse (fun hc => by cases hc)

/-- The exception a fallible call raised, if any (`ConfigData` carries
`PyJson` fields, so results are compared through this projection and
field projections rather than full record equality). -/
def exceptError {α : Type} : Except PyErr α → Option PyErr
  | .error e => some e
  | .ok _ => none

/-- Looking a key up across concatenated field lists scans left to right. -/
theorem jsonLookup_append (l₁ l₂ : List (String × PyJson)) (k : String) :
    jsonLookup (l₁ ++ l₂) k = (jsonLookup l₁ k).or (jsonLookup l₂ k) := by
  induction l₁ with
  | nil => simp [jsonLookup, Option.or]
  | cons hd tl ih =>
    by_cases h : hd.1 = k <;> simp [jsonLookup, h, ih, Option.or]

/-- A string that does not contain the separator does not split on it. -/
theorem splitFirst_eq_none_of_not_contains (s sep : List Char)
    (h : containsSub s sep = false) : splitFirst s sep = none := by
  induction s with
  | nil =>
    unfold containsSub at h
    unfold splitFirst
    simp only [Bool.or_eq_false_iff] at h
    simp [h.1]
  | cons c t ih =>
    unfold containsSub at h
    unfold splitFirst
    simp only [Bool.or_eq_false_iff] at h
    obtain ⟨h1, h2⟩ := h
    simp [h1, ih h2]

/-! ## C1 -/

/-- C1: the claim says every per-dialect parse function is total and never
raises, including on base64 that decodes to non-object JSON.  The code
contradicts this: `vmess://MTIz` wraps base64 of the JSON value `123`, a
non-object, and `parse_vmess` raises `AttributeError` on `.get`
(checker.py line 109). -/
theorem parse_vmess_nonobject_json_raises :
    exceptError (parse_vmess "vmess://MTIz") = some .attributeError := by
  decide

/-! ## C6 -/

/-- C6: the claim says an absent or non-numeric port segment yields 443.
An absent port does yield 443 and an explicit numeric port is preserved,
but a non-numeric port segment makes `parsed.port` (checker.py line 69 /
line 138) raise `ValueError`, which propagates out of `parse_vless` and
`parse_trojan`. -/
theorem parse_vless_trojan_port_behaviour :
    exceptError (parse_vless "vless://u@h:bad") = some .valueError ∧
    (parse_vless "vless://u@h:8443").map (fun c => c.port) = .ok 8443 ∧
    (parse_vless "vless://u@h").map (fun c => c.port) = .ok 443 ∧
    exceptError (parse_trojan "trojan://p@h:x") = some .valueError := by
  refine ⟨by decide, by decide, by decide, by decide⟩

/-! ## C2 -/

/-- C2: the claim says no exception escapes `test_config`, with an engine
spawn failure reported as an `error` result.  The code's outer `try` has
only a `finally` (lines 369, 466): a `subprocess.Popen` failure (line 381)
and a parse exception inside `config_to_json` (line 371) both propagate
out of the trial, shown here on concrete inputs. -/
theorem test_config_exception_escapes :
    exceptError (test_config "vless://u@h" 1080
      ⟨.error .osError, .ok (), .output "", none⟩).1 = some .osError ∧
    exceptError (test_config "vless://u@h:bad" 1080
      ⟨.ok (), .ok (), .output "", none⟩).1 = some .valueError := by
  refine ⟨by decide, by decide⟩

/-! ## C3 -/

/-- C3 counterexample: the claim says normalization sets the record's
`security` field to "tls" when the decoded JSON's "tls" value is the
literal "tls".  `vmess://eyJ0bHMiOiJ0bHMifQ==` wraps base64 of a JSON
object whose "tls" value is exactly "tls", yet the parsed record has
`security = "none"`: line 116 assigns the exact-match result to the `tls`
field and never touches `security`. -/
theorem parse_vmess_tls_counterexample :
    (parse_vmess "vmess://eyJ0bHMiOiJ0bHMifQ==").map
        (fun c => (c.security, c.tls)) = .ok ("none", "tls") ∧
      ("none" : String) ≠ "tls" := by
  refine ⟨by decide, by decide⟩

/-- C3 amended: for every vmess URI whose body decodes to a JSON object
and which parses without an exception, the record's `tls` field — not its
`security` field — is "tls" exactly when the decoded object's "tls" value
is the string literal "tls" (else "none"), while `security` keeps its
default "none". -/
theorem parse_vmess_tls_exact_match (url : String)
    (fs : List (String × PyJson)) (cfg : ConfigData)
    (hpre : pyStartsWith url.data "vmess://".data = true)
    (hdec : decode_vmess_base64 url.data = .obj fs)
    (hok : parse_vmess url = .ok cfg) :
    cfg.security = "none" ∧
      cfg.tls = (if pyOptStrEq (jsonLookup fs "tls") "tls" then "tls" else "none") := by
  unfold parse_vmess at hok
  simp only [hpre, Bool.not_true, Bool.false_eq_true, if_false] at hok
  rw [hdec] at hok
  have hok2 : parse_vmess_fields fs = .ok cfg := hok
  unfold parse_vmess_fields at hok2
  cases hp : pyIntOfJson (jsonGetD fs "port" (.num 443)) with
  | error e => rw [hp] at hok2; cases hok2
  | ok p =>
    rw [hp] at hok2
    cases ha : pyIntOfJson (jsonGetD fs "aid" (.num 0)) with
    | error e => rw [ha] at hok2; cases hok2
    | ok a =>
      rw [ha] at hok2
      injection hok2 with h
      subst h
      exact ⟨rfl, rfl⟩

/-- C3 witness: the spec's Example 2 — a vmess URI wrapping base64 of a
JSON object with add 1.2.3.4, port "443", id u1, net tcp — parses (via the
amended theorem) with security "none" and tls "none", and with the
example's remaining fields. -/
theorem parse_vmess_tls_exact_match_witness :
    (parse_vmess "vmess://eyJhZGQiOiIxLjIuMy40IiwicG9ydCI6IjQ0MyIsImlkIjoidTEiLCJuZXQiOiJ0Y3AifQ==").map
        (fun c => (c.security, c.tls, pyEqStr c.server "1.2.3.4", c.port,
          pyEqStr c.uuid "u1", pyEqStr c.network "tcp"))
      = .ok ("none", "none", true, 443, true, true) := by
  have h := parse_vmess_tls_exact_match
    "vmess://eyJhZGQiOiIxLjIuMy40IiwicG9ydCI6IjQ0MyIsImlkIjoidTEiLCJuZXQiOiJ0Y3AifQ=="
    _ _ rfl rfl rfl
  revert h
  decide

/-! ## C4 -/

/-- C4 counterexample: the claim says the render step performs no file
writes.  Rendering the well-formed endpoint `vless://u@h` produces exactly
one write — `config_to_json` saves the document to its output file
(checker.py lines 317-319) on every successful render. -/
theorem config_to_json_writes_counterexample :
    (config_to_json "vless://u@h" 1080 "config_output.json").map
        (fun r => r.2.length) = .ok 1 ∧ (1 : Nat) ≠ 0 := by
  refine ⟨by decide, by decide⟩

/-- C4 amended: rendering is not pure — whenever `config_to_json` returns
normally, its write trace is exactly one write of the rendered document to
the output file for every supported scheme, and empty only on the
unsupported-scheme branch (which returns before the write). -/
theorem config_to_json_write_trace (url : String) (port : Int) (fn : String)
    (doc : PyJson) (ws : List (String × PyJson))
    (hok : config_to_json url port fn = .ok (doc, ws)) :
    ws = (if pyStartsWith url.data "vless://".data ||
            pyStartsWith url.data "vmess://".data ||
            pyStartsWith url.data "trojan://".data ||
            pyStartsWith url.data "ss://".data then
          [(fn, doc)] else []) := by
  unfold config_to_json at hok
  by_cases h1 : pyStartsWith url.data "vless://".data
  · simp only [h1, if_true, Bool.true_or, Except.map] at hok ⊢
    cases hp : parse_vless url with
    | error e => rw [hp] at hok; simp [Except.map] at hok
    | ok c =>
      rw [hp] at hok
      simp only [Except.map] at hok
      have h2 : (config_to_json_render c port fn).1 = doc ∧
          (config_to_json_render c port fn).2 = ws := by
        injection hok with h3
        exact ⟨by rw [h3], by rw [h3]⟩
      obtain ⟨hd, hw⟩ := h2
      unfold config_to_json_render at hd hw
      rw [← hw, ← hd]
  · simp only [h1, Bool.false_eq_true, if_false, Bool.false_or] at hok ⊢
    by_cases h2 : pyStartsWith url.data "vmess://".data
    · simp only [h2, if_true, Bool.true_or, Except.map] at hok ⊢
      cases hp : parse_vmess url with
      | error e => rw [hp] at hok; simp [Except.map] at hok
      | ok c =>
        rw [hp] at hok
        simp only [Except.map] at hok
        have h3 : (config_to_json_render c port fn).1 = doc ∧
            (config_to_json_render c port fn).2 = ws := by
          injection hok with h4
          exact ⟨by rw [h4], by rw [h4]⟩
        obtain ⟨hd, hw⟩ := h3
        unfold config_to_json_render at hd hw
        rw [← hw, ← hd]
    · simp only [h2, Bool.false_eq_true, if_false, Bool.false_or] at hok ⊢
      by_cases h3 : pyStartsWith url.data "trojan://".data
      · simp only [h3, if_true, Bool.true_or, Except.map] at hok ⊢
        cases hp : parse_trojan url with
        | error e => rw [hp] at hok; simp [Except.map] at hok
        | ok c =>
          rw [hp] at hok
          simp only [Except.map] at hok
          have h4 : (config_to_json_render c port fn).1 = doc ∧
              (config_to_json_render c port fn).2 = ws := by
            injection hok with h5
            exact ⟨by rw [h5], by rw [h5]⟩
          obtain ⟨hd, hw⟩ := h4
          unfold config_to_json_render at hd hw
          rw [← hw, ← hd]
      · simp only [h3, Bool.false_eq_true, if_false, Bool.false_or] at hok ⊢
        by_cases h4 : pyStartsWith url.data "ss://".data
        · simp only [h4, if_true] at hok ⊢
          have h5 : (config_to_json_render (parse_shadowsocks url) port fn).1 = doc ∧
              (config_to_json_render (parse_shadowsocks url) port fn).2 = ws := by
            injection hok with h6
            exact ⟨by rw [h6], by rw [h6]⟩
          obtain ⟨hd, hw⟩ := h5
          unfold config_to_json_render at hd hw
          rw [← hw, ← hd]
        · simp only [h4, Bool.false_eq_true, if_false] at hok ⊢
          injection hok with h6
          exact (congrArg Prod.snd h6).symm

/-- C4 witness: the unsupported scheme `foo` renders to the error dict
with an empty write trace, via the amended theorem. -/
theorem config_to_json_write_trace_witness :
    (config_to_json "foo" 1080 "config_output.json").map
        (fun r => r.2.length) = .ok 0 := by
  have h := config_to_json_write_trace "foo" 1080 "config_output.json"
    unsupportedFormatObj [] rfl
  decide

/-! ## C5 -/

/-- C5 counterexample: the claim says a failure of Shape A is followed by
an attempt of Shape B.  On `ss://@YWVzOnB3QGg6ODA=` (an `@` before base64
of `aes:pw@h:80`), Shape A fails (the part left of `@` is empty) and
Shape B would succeed — the spec-ordered algorithm yields
method aes / password pw / server h / port 80 — but the code returns the
empty fallback, because lines 160-167 choose the shape by the presence of
`@` and the bare `except` never tries the other shape. -/
theorem parse_shadowsocks_order_counterexample :
    (parse_shadowsocks "ss://@YWVzOnB3QGg6ODA=").method = "auto" ∧
    (parse_shadowsocks "ss://@YWVzOnB3QGg6ODA=").port = 443 ∧
    (parse_shadowsocks_spec "ss://@YWVzOnB3QGg6ODA=").method = "aes" ∧
    (parse_shadowsocks_spec "ss://@YWVzOnB3QGg6ODA=").password = "pw" ∧
    (parse_shadowsocks_spec "ss://@YWVzOnB3QGg6ODA=").port = 80 ∧
    pyEqStr (parse_shadowsocks_spec "ss://@YWVzOnB3QGg6ODA=").server "h" = true ∧
    (parse_shadowsocks "ss://@YWVzOnB3QGg6ODA=").method ≠
      (parse_shadowsocks_spec "ss://@YWVzOnB3QGg6ODA=").method := by
  refine ⟨by decide, by decide, by decide, by decide, by decide, by decide, by decide⟩

/-- C5 amended: the code attempts Shape A exactly when the remainder
contains `@` and Shape B otherwise, never falling back from one shape to
the other; consequently its result agrees with the spec-ordered
try-A-then-B algorithm whenever the attempted shape succeeds, and is the
empty-fields fallback otherwise. -/
theorem parse_shadowsocks_vs_spec (url : String) :
    parse_shadowsocks url = parse_shadowsocks_spec url ∨
      parse_shadowsocks url = ConfigData.mkDefault "shadowsocks" := by
  unfold parse_shadowsocks parse_shadowsocks_spec
  by_cases hs : pyStartsWith url.data "ss://".data
  · simp only [hs, Bool.not_true, Bool.false_eq_true, if_false]
    by_cases hat : containsSub (pyReplace url.data "ss://".data []) "@".data
    · simp only [hat, if_true]
      cases hA : ss_shapeA (pyReplace url.data "ss://".data []) with
      | some c => exact Or.inl rfl
      | none => exact Or.inr rfl
    · have hatf : containsSub (pyReplace url.data "ss://".data []) "@".data = false :=
        Bool.eq_false_iff.mpr hat
      have hA : ss_shapeA (pyReplace url.data "ss://".data []) = none := by
        unfold ss_shapeA
        rw [splitFirst_eq_none_of_not_contains _ _ hatf]
        rfl
      rw [hatf, hA]
      simp only [Bool.false_eq_true, if_false]
      exact Or.inl trivial
  · simp only [hs, Bool.not_false, if_true]
    exact Or.inl trivial

/-! ## C9 -/

/-- C9: within any chunk `main` slices out of the endpoint list, the ports
`test_config_batch` assigns (`start_port + (index mod batch_size)`) are
pairwise distinct: the chunk has at most `batch_size` elements, so the
modulus is the identity on its indices. -/
theorem batch_ports_nodup (configs : List String) (sp : Int) (bs bn : Nat) :
    (test_config_batch_ports (main_chunk configs bs bn) sp bs).Nodup := by
  have hlen : (main_chunk configs bs bn).length ≤ bs := by
    simp only [main_chunk, List.length_take]
    omega
  unfold test_config_batch_ports
  apply List.Nodup.map_on ?_ (List.nodup_range _)
  intro x hx y hy heq
  rw [List.mem_range] at hx hy
  unfold batch_port at heq
  rw [Nat.mod_eq_of_lt (lt_of_lt_of_le hx hlen),
    Nat.mod_eq_of_lt (lt_of_lt_of_le hy hlen)] at heq
  omega

/-! ## C7 -/

/-- The classification mapping as amended: the empty byte output is "no
response"; otherwise the body is stripped, and the stripped text is
checked for HTML markers, then for strict IP validity; success carries the
stripped text.  Triple: (status, message, observed address). -/
def probe_spec_result (body : String) : String × Option String × Option String :=
  if body = "" then ("failed", some "No response from IP check service", none)
  else
    let output := pyStripS body
    if containsSub (pyLower output.data) "<html".data ||
        containsSub (pyLower output.data) "<!doctype".data then
      ("failed", some "Received HTML response instead of IP", none)
    else if !ip_address_valid output then
      ("failed", some ("Invalid IP: " ++ output), none)
    else
      ("success", none, some output)

/-- The classification part of `test_config` projects onto the amended
mapping, whatever the ledger holds. -/
theorem classify_body_spec (url : String) (port : Int) (body : String)
    (L : Option (List String)) :
    ((classify_body url port body L).1.status,
      (classify_body url port body L).1.message,
      (classify_body url port body L).1.ip) = probe_spec_result body := by
  unfold classify_body probe_spec_result
  by_cases hb : body = ""
  · simp [hb]
  · rw [if_pos hb, if_neg hb]
    by_cases hhtml : (containsSub (pyLower (pyStripS body).data) "<html".data ||
        containsSub (pyLower (pyStripS body).data) "<!doctype".data) = true
    · simp [hhtml]
    · have hhtmlf := Bool.eq_false_iff.mpr hhtml
      simp only [hhtmlf, Bool.false_eq_true, if_false]
      by_cases hip : ip_address_valid (pyStripS body) = true
      · simp only [hip, Bool.not_true, Bool.false_eq_true, if_false]
        cases L with
        | none => rfl
        | some lines =>
          dsimp only
          by_cases hmem : (lines.map pyStripS).contains url = true
          · rw [hmem]
            simp
          · have hmemf := Bool.eq_false_iff.mpr hmem
            rw [hmemf]
            simp
      · have hipf : ip_address_valid (pyStripS body) = false :=
          Bool.eq_false_iff.mpr hip
        simp [hipf]

/-- C7 counterexample: the claim says a body failing strict IP-literal
validation is classified `failed`.  The body consisting of an address
followed by a newline is not a valid IP literal, yet the trial strips it
(line 402) and reports success with the stripped address. -/
theorem test_config_strip_counterexample :
    ip_address_valid "1.2.3.4\n" = false ∧
    ((test_config "vless://u@h" 1080
        ⟨.ok (), .ok (), .output "1.2.3.4\n", none⟩).1).map
      (fun r => (r.status, r.ip)) = .ok ("success", some "1.2.3.4") := by
  refine ⟨by decide, by decide⟩

/-- C7 amended: for every trial whose render succeeds without the
unsupported-format dict and whose engine and probe processes spawn, the
returned status, message and observed address are exactly the amended
classification of the probe body: empty byte output → no-response;
stripped body with an HTML marker → HTML message; stripped body failing
strict IP validation → invalid-IP message; otherwise success carrying the
stripped body. -/
theorem test_config_probe_classification (url : String) (port : Int)
    (body : String) (L : Option (List String)) (doc : PyJson)
    (ws : List (String × PyJson))
    (hrender : config_to_json url port "config_output.json" = .ok (doc, ws))
    (herr : jsonHasKey doc "error" = false) :
    ((test_config url port ⟨.ok (), .ok (), .output body, L⟩).1).map
        (fun r => (r.status, r.message, r.ip)) = .ok (probe_spec_result body) := by
  unfold test_config
  rw [hrender]
  show ((test_config_rendered url port ⟨.ok (), .ok (), .output body, L⟩ doc).1).map
      (fun r => (r.status, r.message, r.ip)) = .ok (probe_spec_result body)
  unfold test_config_rendered
  rw [herr]
  simp only [Bool.false_eq_true, if_false]
  show (Except.ok (classify_body url port body L).1).map
      (fun r => (r.status, r.message, r.ip)) = .ok (probe_spec_result body)
  simp only [Except.map]
  rw [← classify_body_spec url port body L]

/-- C7 witness: the spec's Example 3 — probe body `203.0.113.7` — yields
a success carrying that address, through the amended theorem. -/
theorem test_config_probe_classification_witness :
    ((test_config "vless://u@h" 1080
        ⟨.ok (), .ok (), .output "203.0.113.7", none⟩).1).map
      (fun r => (r.status, r.message, r.ip))
      = .ok ("success", none, some "203.0.113.7") := by
  have h := test_config_probe_classification "vless://u@h" 1080 "203.0.113.7"
    none _ _ rfl rfl
  exact h.trans (by decide)

/-! ## C8 -/

/-- C8 counterexample: the claim says that from any ledger state the first
insertion reports `alreadyRecorded = false`.  Starting from a ledger that
already holds the string, the first insertion reports `true`. -/
theorem ledger_insert_counterexample :
    (test_config_ledger_step ["conf"] "conf").2 = true ∧ true ≠ false := by
  refine ⟨by decide, by decide⟩

/-- C8 amended: starting from a ledger that does not yet contain the
(whitespace-clean) string, inserting it twice in sequence reports
`alreadyRecorded = false` then `true`, appends exactly once, and leaves
exactly one stored entry for that string. -/
theorem ledger_insert_idempotent (L : List String) (c : String)
    (habs : (L.map pyStripS).contains c = false) (hc : pyStripS c = c) :
    (test_config_ledger_step L c).2 = false ∧
    (test_config_ledger_step (test_config_ledger_step L c).1 c).2 = true ∧
    (test_config_ledger_step (test_config_ledger_step L c).1 c).1 = L ++ [c] ∧
    ((test_config_ledger_step (test_config_ledger_step L c).1 c).1.map pyStripS).count c = 1 := by
  have h1 : test_config_ledger_step L c = (L ++ [c], false) := by
    unfold test_config_ledger_step save_working_config
    rw [habs]
    simp
  have hmem : ((L ++ [c]).map pyStripS).contains c = true := by
    apply List.elem_eq_true_of_mem
    rw [List.mem_map]
    exact ⟨c, by simp, hc⟩
  have h2 : test_config_ledger_step (L ++ [c]) c = (L ++ [c], true) := by
    unfold test_config_ledger_step
    rw [hmem]
    simp
  have hcount : (L.map pyStripS).count c = 0 := by
    rw [List.count_eq_zero]
    intro hmm
    have h3 : (List.map pyStripS L).contains c = true := List.elem_eq_true_of_mem hmm
    rw [habs] at h3
    cases h3
  refine ⟨by rw [h1], by rw [h1, h2], by rw [h1, h2], ?_⟩
  rw [h1, h2]
  simp only [List.map_append, List.map_cons, List.map_nil, hc]
  rw [List.count_append]
  rw [hcount]
  simp [List.count_cons]

/-- C8 witness: from the empty ledger, inserting `abc` twice reports
false then true and stores one entry. -/
theorem ledger_insert_idempotent_witness :
    (test_config_ledger_step [] "abc").2 = false ∧
    (test_config_ledger_step (test_config_ledger_step [] "abc").1 "abc").2 = true ∧
    (test_config_ledger_step (test_config_ledger_step [] "abc").1 "abc").1 = [] ++ ["abc"] ∧
    ((test_config_ledger_step (test_config_ledger_step [] "abc").1 "abc").1.map pyStripS).count "abc" = 1 := by
  exact ledger_insert_idempotent [] "abc" (by decide) (by decide)

/-! ## C10 -/

/-- Key access in a rendered document. -/
def jsonGetKey (j : PyJson) (k : String) : Option PyJson :=
  match j with
  | .obj fs => jsonLookup fs k
  | _ => none

/-- Index access in a rendered document. -/
def jsonIdx (j : PyJson) (i : Nat) : Option PyJson :=
  match j with
  | .arr xs => xs.get? i
  | _ => none

/-- The `alpn` value of the TLS overlay of the single outbound. -/
def rendered_tls_alpn (doc : PyJson) : Option PyJson :=
  (((jsonGetKey doc "outbounds").bind (jsonIdx · 0)).bind
      (jsonGetKey · "streamSettings")).bind
    (fun s => (jsonGetKey s "tlsSettings").bind (jsonGetKey · "alpn"))

/-- C10: whenever the endpoint's security is not "none", the rendered
document's TLS overlay carries `alpn` as a list of length at most one:
the whole (possibly comma-separated) `alpn` string as the single element
when non-empty, and the empty list otherwise (line 222). -/
theorem rendered_alpn_singleton (cfg : ConfigData) (port : Int)
    (hsec : cfg.security ≠ "none") :
    rendered_tls_alpn (build_xray_config cfg port)
        = some (.arr (if cfg.alpn = "" then [] else [.str cfg.alpn])) ∧
      (if cfg.alpn = "" then ([] : List PyJson) else [.str cfg.alpn]).length ≤ 1 := by
  constructor
  · have hstep : rendered_tls_alpn (build_xray_config cfg port)
        = (jsonLookup (streamSettingsFields cfg) "tlsSettings").bind
            (jsonGetKey · "alpn") := rfl
    rw [hstep]
    unfold streamSettingsFields
    rw [if_pos hsec]
    rfl
  · by_cases h : cfg.alpn = "" <;> simp [h]

/-- C10 witness: a TLS endpoint whose `alpn` is the comma-separated
`h2,http/1.1` renders with that whole string as the single list element. -/
theorem rendered_alpn_singleton_witness :
    rendered_tls_alpn (build_xray_config
        { ConfigData.mkDefault "vless" with security := "tls", alpn := "h2,http/1.1" } 443)
      = some (.arr [.str "h2,http/1.1"]) := by
  have h := rendered_alpn_singleton
    { ConfigData.mkDefault "vless" with security := "tls", alpn := "h2,http/1.1" } 443
    (by decide)
  exact h.1.trans (by rfl)
